import Mathlib

/-!
Shallow embedding of `compiler/rustc_middle/src/ty/relate.rs`:
the generalized type-relation engine of rustc.

Interned rustc values are modelled as plain inductive values (interning makes
structural equality coincide with reference equality, so `==` on interned
values is structural equality here).  Fallible Rust code returning
`RelateResult<'tcx, T> = Result<T, TypeError>` is modelled by `Res T`, which
has a third alternative `fatal` for the `bug!`/`assert!`/`todo!` panic channel
(a diverging abort, distinct from a returned `TypeError`).
-/

/-- `hir::Mutability`. -/
inductive Mutability where
  | not
  | mut
deriving DecidableEq

/-- `hir::Safety` (`Safe` / `Unsafe`). -/
inductive Safety where
  | safe
  | unsaf
deriving DecidableEq

/-- `rustc_target::spec::abi::Abi`: only equality of ABI tags matters to
`relate.rs`, so the tag is modelled as a number. -/
abbrev Abi := Nat

/-- `ty::Region`: opaque at this layer; relation is delegated to the strategy. -/
abbrev Region := Nat

/-- `DefId`: defining-site identity. -/
abbrev DefId := Nat

/-- `ty::DynKind`: representation tag of a trait-object type (`dyn` / `dyn*`). -/
inductive DynKind where
  | dyn
  | dynStar
deriving DecidableEq

/-- `ty::Variance`. -/
inductive Variance where
  | covariant
  | invariant
  | contravariant
  | bivariant
deriving DecidableEq

/-- `ty::AliasTyKind`: which sort of alias a `ty::Alias` is.  (`Opaque` is
spelled `opaq` here.)  In rustc this is derived from the alias's `DefId`
through the type context; the model does the same via `TyCtxt.alias_kind_of`. -/
inductive AliasTyKind where
  | opaq
  | projection
  | weak
  | inherent
deriving DecidableEq

/-- `ty::ExprKind` of a structured const expression: operator tag.  Two tags
are compatible in `structurally_relate_consts` exactly when they are equal. -/
inductive ConstExprKind where
  | binop (op : Nat)
  | unop (op : Nat)
  | functionCall
  | cast (kind : Nat)
deriving DecidableEq

/-- `ty::Binder<T>`: a value together with the bound variables it introduces.
`skip_binder` is `.value`; `rebind x` keeps the binder's `vars`. -/
structure Binder (α : Type) where
  vars : List Nat
  value : α
deriving DecidableEq

mutual

/-- `ty::TyKind` (the interned `Ty`): tagged union over the structural shapes
of a rustc type, as matched by `structurally_relate_tys`. -/
inductive Ty where
  | bool
  | char
  | str
  | never
  | int (w : Nat)
  | uint (w : Nat)
  | float (w : Nat)
  | infer (v : Nat)
  | bound (idx : Nat)
  | error (guar : Nat)
  | param (index : Nat) (name : Nat)
  | placeholder (p : Nat)
  | adt (did : DefId) (args : List GenericArg)
  | foreign (did : DefId)
  | dynamic (preds : List (Binder ExistentialPredicate)) (r : Region) (repr : DynKind)
  | coroutine (did : DefId) (args : List GenericArg)
  | coroutineWitness (did : DefId) (args : List GenericArg)
  | closure (did : DefId) (args : List GenericArg)
  | coroutineClosure (did : DefId) (args : List GenericArg)
  | rawPtr (t : Ty) (m : Mutability)
  | ref (r : Region) (t : Ty) (m : Mutability)
  | array (t : Ty) (n : Const)
  | slice (t : Ty)
  | tuple (ts : List Ty)
  | fnDef (did : DefId) (args : List GenericArg)
  | fnPtr (sig : Binder FnSig)
  | alias (k : AliasTyKind) (data : AliasTy)
  | pat (t : Ty) (p : Pattern)

/-- `ty::ConstKind` (the interned `Const`).  `value` carries just the scalar
valtree payload: `structurally_relate_consts` compares only the valtrees of
two `ConstKind::Value`s (`a_val == b_val`, the type component is ignored). -/
inductive Const where
  | param (index : Nat) (name : Nat)
  | infer (v : Nat)
  | bound (idx : Nat)
  | placeholder (p : Nat)
  | unevaluated (did : DefId) (args : List GenericArg)
  | value (v : Nat)
  | error (guar : Nat)
  | expr (kind : ConstExprKind) (args : List GenericArg)

/-- `ty::GenericArg`: sum over exactly one of region/type/const. -/
inductive GenericArg where
  | lifetime (r : Region)
  | type (t : Ty)
  | const (c : Const)

/-- `ty::Term`: sum over type/const, for slots where an associated item can
resolve to either. -/
inductive Term where
  | ty (t : Ty)
  | const (c : Const)

/-- `ty::ExistentialTraitRef`: trait `DefId` plus args (without `Self`). -/
inductive ExistentialTraitRef where
  | mk (defId : DefId) (args : List GenericArg)

/-- `ty::ExistentialProjection`: item `DefId`, args, and the bound term. -/
inductive ExistentialProjection where
  | mk (defId : DefId) (args : List GenericArg) (term : Term)

/-- `ty::ExistentialPredicate`: one trait-object capability. -/
inductive ExistentialPredicate where
  | trait (t : ExistentialTraitRef)
  | projection (p : ExistentialProjection)
  | autoTrait (defId : DefId)

/-- `ty::FnSig`: the flat `inputs_and_output` type list (inputs followed by
the single output), the `c_variadic` flag, the safety qualifier and the ABI. -/
inductive FnSig where
  | mk (inputs_and_output : List Ty) (c_variadic : Bool) (safety : Safety) (abi : Abi)

/-- `ty::AliasTy` / `ty::AliasTerm`: defining-site identity plus args. -/
inductive AliasTy where
  | mk (defId : DefId) (args : List GenericArg)

/-- `ty::PatternKind`: only the `Range` form exists. -/
inductive Pattern where
  | range (start : Option Const) (stop : Option Const) (includeEnd : Bool)

end

/-! Structural (interned-pointer) equality for the family, as a `Bool`-valued
function: rustc's `PartialEq` on interned values is structural equality.
(`deriving DecidableEq` does not handle mutual inductives in this toolchain.) -/

mutual

def Ty.beq (a b : Ty) : Bool := match a, b with
  | .bool, .bool => true
  | .char, .char => true
  | .str, .str => true
  | .never, .never => true
  | .int w1, .int w2 => w1 == w2
  | .uint w1, .uint w2 => w1 == w2
  | .float w1, .float w2 => w1 == w2
  | .infer v1, .infer v2 => v1 == v2
  | .bound i1, .bound i2 => i1 == i2
  | .error g1, .error g2 => g1 == g2
  | .param i1 n1, .param i2 n2 => i1 == i2 && n1 == n2
  | .placeholder p1, .placeholder p2 => p1 == p2
  | .adt d1 a1, .adt d2 a2 => d1 == d2 && GenericArg.beqList a1 a2
  | .foreign d1, .foreign d2 => d1 == d2
  | .dynamic p1 r1 k1, .dynamic p2 r2 k2 =>
    ExistentialPredicate.beqPolyList p1 p2 && r1 == r2 && k1 == k2
  | .coroutine d1 a1, .coroutine d2 a2 => d1 == d2 && GenericArg.beqList a1 a2
  | .coroutineWitness d1 a1, .coroutineWitness d2 a2 => d1 == d2 && GenericArg.beqList a1 a2
  | .closure d1 a1, .closure d2 a2 => d1 == d2 && GenericArg.beqList a1 a2
  | .coroutineClosure d1 a1, .coroutineClosure d2 a2 => d1 == d2 && GenericArg.beqList a1 a2
  | .rawPtr t1 m1, .rawPtr t2 m2 => Ty.beq t1 t2 && m1 == m2
  | .ref r1 t1 m1, .ref r2 t2 m2 => r1 == r2 && Ty.beq t1 t2 && m1 == m2
  | .array t1 n1, .array t2 n2 => Ty.beq t1 t2 && Const.beq n1 n2
  | .slice t1, .slice t2 => Ty.beq t1 t2
  | .tuple l1, .tuple l2 => Ty.beqList l1 l2
  | .fnDef d1 a1, .fnDef d2 a2 => d1 == d2 && GenericArg.beqList a1 a2
  | .fnPtr ⟨v1, f1⟩, .fnPtr ⟨v2, f2⟩ => v1 == v2 && FnSig.beq f1 f2
  | .alias k1 d1, .alias k2 d2 => k1 == k2 && AliasTy.beq d1 d2
  | .pat t1 p1, .pat t2 p2 => Ty.beq t1 t2 && Pattern.beq p1 p2
  | _, _ => false
termination_by structural a

def Ty.beqList (a b : List Ty) : Bool := match a, b with
  | [], [] => true
  | x :: xs, y :: ys => Ty.beq x y && Ty.beqList xs ys
  | _, _ => false
termination_by structural a


def Const.beq (a b : Const) : Bool := match a, b with
  | .param i1 n1, .param i2 n2 => i1 == i2 && n1 == n2
  | .infer v1, .infer v2 => v1 == v2
  | .bound i1, .bound i2 => i1 == i2
  | .placeholder p1, .placeholder p2 => p1 == p2
  | .unevaluated d1 a1, .unevaluated d2 a2 => d1 == d2 && GenericArg.beqList a1 a2
  | .value v1, .value v2 => v1 == v2
  | .error g1, .error g2 => g1 == g2
  | .expr k1 a1, .expr k2 a2 => k1 == k2 && GenericArg.beqList a1 a2
  | _, _ => false
termination_by structural a


def Const.beqOption (a b : Option Const) : Bool := match a, b with
  | none, none => true
  | some c1, some c2 => Const.beq c1 c2
  | _, _ => false
termination_by structural a


def GenericArg.beq (a b : GenericArg) : Bool := match a, b with
  | .lifetime r1, .lifetime r2 => r1 == r2
  | .type t1, .type t2 => Ty.beq t1 t2
  | .const c1, .const c2 => Const.beq c1 c2
  | _, _ => false
termination_by structural a


def GenericArg.beqList (a b : List GenericArg) : Bool := match a, b with
  | [], [] => true
  | x :: xs, y :: ys => GenericArg.beq x y && GenericArg.beqList xs ys
  | _, _ => false
termination_by structural a


def Term.beq (a b : Term) : Bool := match a, b with
  | .ty t1, .ty t2 => Ty.beq t1 t2
  | .const c1, .const c2 => Const.beq c1 c2
  | _, _ => false
termination_by structural a


def ExistentialTraitRef.beq (a b : ExistentialTraitRef) : Bool := match a, b with
  | .mk d1 a1, .mk d2 a2 => d1 == d2 && GenericArg.beqList a1 a2
termination_by structural a


def ExistentialProjection.beq (a b : ExistentialProjection) : Bool := match a, b with
  | .mk d1 a1 t1, .mk d2 a2 t2 => d1 == d2 && GenericArg.beqList a1 a2 && Term.beq t1 t2
termination_by structural a


def ExistentialPredicate.beq (a b : ExistentialPredicate) : Bool := match a, b with
  | .trait t1, .trait t2 => ExistentialTraitRef.beq t1 t2
  | .projection p1, .projection p2 => ExistentialProjection.beq p1 p2
  | .autoTrait d1, .autoTrait d2 => d1 == d2
  | _, _ => false
termination_by structural a


def ExistentialPredicate.beqPoly (a b : Binder ExistentialPredicate) : Bool := match a, b with
  | ⟨v1, p1⟩, ⟨v2, p2⟩ => v1 == v2 && ExistentialPredicate.beq p1 p2
termination_by structural a


def ExistentialPredicate.beqPolyList (a b : List (Binder ExistentialPredicate)) : Bool :=
  match a, b with
  | [], [] => true
  | x :: xs, y :: ys => ExistentialPredicate.beqPoly x y && ExistentialPredicate.beqPolyList xs ys
  | _, _ => false
termination_by structural a


def FnSig.beq (a b : FnSig) : Bool := match a, b with
  | .mk io1 v1 s1 a1, .mk io2 v2 s2 a2 =>
    Ty.beqList io1 io2 && v1 == v2 && s1 == s2 && a1 == a2
termination_by structural a


def AliasTy.beq (a b : AliasTy) : Bool := match a, b with
  | .mk d1 a1, .mk d2 a2 => d1 == d2 && GenericArg.beqList a1 a2
termination_by structural a


def Pattern.beq (a b : Pattern) : Bool := match a, b with
  | .range s1 e1 i1, .range s2 e2 i2 =>
    Const.beqOption s1 s2 && Const.beqOption e1 e2 && i1 == i2
termination_by structural a

end


/-- `ExpectedFound<T>`: the expected/found pair carried by most errors. -/
structure ExpectedFound (α : Type) where
  expected : α
  found : α
deriving DecidableEq

/-- `expected_found(a, b) = ExpectedFound::new(true, a, b)`: `a` is the
expected side. -/
def expected_found {α : Type} (a b : α) : ExpectedFound α :=
  ⟨a, b⟩

/-- `ty::error::TypeError`: the closed set of reportable mismatch kinds
produced by `relate.rs` (variants not constructed there are omitted). -/
inductive TypeError where
  | mismatch
  | constnessMismatch (x : ExpectedFound Nat)
  | polarityMismatch (x : ExpectedFound Nat)
  | safetyMismatch (x : ExpectedFound Safety)
  | abiMismatch (x : ExpectedFound Abi)
  | mutability
  | argumentMutability (i : Nat)
  | tupleSize (x : ExpectedFound Nat)
  | fixedArraySize (x : ExpectedFound Nat)
  | argCount
  | variadicMismatch (x : ExpectedFound Bool)
  | sorts (x : ExpectedFound Ty)
  | argumentSorts (x : ExpectedFound Ty) (i : Nat)
  | traits (x : ExpectedFound DefId)
  | projectionMismatched (x : ExpectedFound DefId)
  | existentialMismatch (x : ExpectedFound (List (Binder ExistentialPredicate)))
  | constMismatch (x : ExpectedFound Const)

/-- Result of a relate operation.  `ok`/`err` model
`RelateResult = Result<T, TypeError>`; `fatal` models the diverging
`bug!`/`assert!`/`todo!` panic channel (a caller-invariant violation, never a
reportable error). -/
inductive Res (α : Type) where
  | ok (a : α)
  | err (e : TypeError)
  | fatal

/-- `Result::map` on the `ok` alternative; `err`/`fatal` pass through. -/
def Res.map {α β : Type} (f : α → β) : Res α → Res β
  | .ok a => .ok (f a)
  | .err e => .err e
  | .fatal => .fatal

/-- The `?` operator: continue on `ok`, propagate `err` (and `fatal`). -/
def Res.bind {α β : Type} : Res α → (α → Res β) → Res β
  | .ok a, f => f a
  | .err e, _ => .err e
  | .fatal, _ => .fatal

/-- Collect a list of fallible results, stopping at the first `err`/`fatal`:
models `mk_*_from_iter` / `collect::<Result<_, _>>()` over a fallible
iterator. -/
def Res.mapList {α β : Type} (f : α → Res β) : List α → Res (List β)
  | [] => .ok []
  | x :: xs =>
    match f x with
    | .ok y => (Res.mapList f xs).map (y :: ·)
    | .err e => .err e
    | .fatal => .fatal

/-- `ty::VarianceDiagInfo`: diagnostic payload attached to an invariant
position (the enclosing type and the parameter index within it). -/
inductive VarianceDiagInfo where
  | none
  | invariant (ty : Ty) (param_index : Nat)

/-- The slice of `TyCtxt` that `relate.rs` consults: variance tables,
item-type instantiation (diagnostics only), the alias kind of a `DefId`, and
the abstract-const machinery behind the `generic_const_exprs` feature gate. -/
structure TyCtxt where
  variances_of : DefId → List Variance
  type_of_instantiated : DefId → List GenericArg → Ty
  alias_kind_of : DefId → AliasTyKind
  generic_const_exprs : Bool
  expand_abstract_consts : Const → Const

/-- The `TypeRelation` strategy contract.  The generic methods
`relate_with_variance` and `binders` are generic over the related entity in
Rust; here one field per instantiation that `relate.rs` actually uses.
`relate::<Ty>` is `tys`, `relate::<Region>` is `regions`,
`relate::<Const>` is `consts` (the `Relate` impls for `Ty`/`Region`/`Const`
delegate to the strategy's primitive hooks). -/
structure TypeRelation where
  tcx : TyCtxt
  tys : Ty → Ty → Res Ty
  regions : Region → Region → Res Region
  consts : Const → Const → Res Const
  relateWithVarianceTy : Variance → VarianceDiagInfo → Ty → Ty → Res Ty
  relateWithVarianceArg : Variance → VarianceDiagInfo → GenericArg → GenericArg → Res GenericArg
  relateWithVarianceArgs :
    Variance → VarianceDiagInfo → List GenericArg → List GenericArg → Res (List GenericArg)
  relateWithVarianceTerm : Variance → VarianceDiagInfo → Term → Term → Res Term
  bindersFnSig : Binder FnSig → Binder FnSig → Res (Binder FnSig)
  bindersExTraitRef : Binder ExistentialTraitRef → Binder ExistentialTraitRef →
    Res (Binder ExistentialTraitRef)
  bindersExProjection : Binder ExistentialProjection → Binder ExistentialProjection →
    Res (Binder ExistentialProjection)

/-- `relate_args_invariantly`: zip the two argument lists and relate each pair
with `Invariant` variance and default (empty) diagnostic info. -/
def relate_args_invariantly (R : TypeRelation) (aArg bArg : List GenericArg) :
    Res (List GenericArg) :=
  Res.mapList (fun p => R.relateWithVarianceArg .invariant .none p.1 p.2) (aArg.zip bArg)

/-- Loop of `relate_args_with_variances`: position `i` relates with the
variance table's entry for `i`; when that entry is `Invariant` and diagnostic
fetching was requested, the info carries the instantiated item type (in Rust
fetched lazily and cached; a pure function here) and the position index.
Indexing past the end of the variance table is an out-of-bounds panic. -/
def relate_args_with_variances_go (R : TypeRelation) (tyDefId : DefId)
    (variances : List Variance) (aArgFull : List GenericArg) (fetchTyForDiag : Bool)
    (i : Nat) : List (GenericArg × GenericArg) → Res (List GenericArg)
  | [] => .ok []
  | (x, y) :: rest =>
    match variances.get? i with
    | Option.none => .fatal
    | some variance =>
      let varianceInfo : VarianceDiagInfo :=
        match variance, fetchTyForDiag with
        | .invariant, true =>
          .invariant (R.tcx.type_of_instantiated tyDefId aArgFull) i
        | _, _ => .none
      match R.relateWithVarianceArg variance varianceInfo x y with
      | .ok z =>
        (relate_args_with_variances_go R tyDefId variances aArgFull fetchTyForDiag
          (i + 1) rest).map (z :: ·)
      | .err e => .err e
      | .fatal => .fatal

/-- `relate_args_with_variances`. -/
def relate_args_with_variances (R : TypeRelation) (tyDefId : DefId)
    (variances : List Variance) (aArg bArg : List GenericArg) (fetchTyForDiag : Bool) :
    Res (List GenericArg) :=
  relate_args_with_variances_go R tyDefId variances aArg fetchTyForDiag 0 (aArg.zip bArg)

/-- `TypeRelation::relate_item_args` (the trait's default body): look up the
item's variance table and apply it, with diagnostic fetching enabled. -/
def relate_item_args (R : TypeRelation) (itemDefId : DefId)
    (aArg bArg : List GenericArg) : Res (List GenericArg) :=
  relate_args_with_variances R itemDefId (R.tcx.variances_of itemDefId) aArg bArg true

/-- `Relate for hir::Safety`: plain equality, any difference is a
`SafetyMismatch` naming both sides. -/
def relateSafety (_R : TypeRelation) (a b : Safety) : Res Safety :=
  if a ≠ b then .err (.safetyMismatch (expected_found a b)) else .ok a

/-- `Relate for abi::Abi`: plain equality, any difference is an `AbiMismatch`
naming both sides. -/
def relateAbi (_R : TypeRelation) (a b : Abi) : Res Abi :=
  if a == b then .ok a else .err (.abiMismatch (expected_found a b))

/-- `ty::FnSig::inputs()`: all but the last entry of `inputs_and_output`. -/
def FnSig.inputs : FnSig → List Ty
  | .mk io _ _ _ => io.dropLast

/-- `ty::FnSig::output()`: the last entry of `inputs_and_output` (rustc
panics on an empty list; a signature always has an output, so the default
returned here for the empty list is unreachable). -/
def FnSig.output : FnSig → Ty
  | .mk io _ _ _ => io.getLastD .never

def FnSig.c_variadic : FnSig → Bool
  | .mk _ v _ _ => v

def FnSig.safety : FnSig → Safety
  | .mk _ _ s _ => s

def FnSig.abi : FnSig → Abi
  | .mk _ _ _ a => a

/-- The positional re-tagging applied to each entry of the
inputs-then-output sequence in `Relate for ty::FnSig`: `Sorts` and
`ArgumentSorts` sub-errors become `ArgumentSorts` at index `i`; `Mutability`
and `ArgumentMutability` become `ArgumentMutability` at index `i`; every
other outcome passes through unchanged. -/
def retagFnSigError (i : Nat) : TypeError → TypeError
  | .sorts ef => .argumentSorts ef i
  | .argumentSorts ef _ => .argumentSorts ef i
  | .mutability => .argumentMutability i
  | .argumentMutability _ => .argumentMutability i
  | e => e

/-- The enumerated inputs-then-output traversal of `Relate for ty::FnSig`:
each non-output pair relates with `Contravariant` variance, the output pair
relates through the plain `relate` entry (`tys`); a failure is re-tagged with
the entry's position `i` and stops the traversal. -/
def relateFnSigEntries (R : TypeRelation) (i : Nat) :
    List ((Ty × Ty) × Bool) → Res (List Ty)
  | [] => .ok []
  | ((x, y), isOutput) :: rest =>
    let r := if isOutput then R.tys x y else R.relateWithVarianceTy .contravariant .none x y
    match r with
    | .ok t => (relateFnSigEntries R (i + 1) rest).map (t :: ·)
    | .err e => .err (retagFnSigError i e)
    | .fatal => .fatal

/-- `Relate for ty::FnSig`. -/
def relateFnSig (R : TypeRelation) (a b : FnSig) : Res FnSig :=
  if a.c_variadic ≠ b.c_variadic then
    .err (.variadicMismatch (expected_found a.c_variadic b.c_variadic))
  else
    Res.bind (relateSafety R a.safety b.safety) fun safety =>
    Res.bind (relateAbi R a.abi b.abi) fun abi =>
    if a.inputs.length ≠ b.inputs.length then
      .err .argCount
    else
      Res.bind
        (relateFnSigEntries R 0
          ((a.inputs.zip b.inputs).map (fun p => (p, false)) ++ [((a.output, b.output), true)]))
        fun inputs_and_output =>
      .ok (.mk inputs_and_output a.c_variadic safety abi)

/-- `Relate for ty::AliasTy` (and, for the kinds reachable from a type,
`ty::AliasTerm`): identities must match, then args relate through the item's
variance table for an opaque alias (without fetching the underlying type for
diagnostics, to avoid a cycle) and invariantly for every other alias kind. -/
def relateAliasTy (R : TypeRelation) (a b : AliasTy) : Res AliasTy :=
  match a, b with
  | .mk aDef aArgs, .mk bDef bArgs =>
    if aDef ≠ bDef then
      .err (.projectionMismatched (expected_found aDef bDef))
    else
      Res.bind
        (match R.tcx.alias_kind_of aDef with
         | .opaq =>
           relate_args_with_variances R aDef (R.tcx.variances_of aDef) aArgs bArgs false
         | _ => relate_args_invariantly R aArgs bArgs)
        fun args =>
      .ok (.mk aDef args)

/-- `Relate for GenericArg`: both sides must carry the same wrapped kind;
the inner values relate through the matching primitive hook; a kind mismatch
is a `bug!` (fatal), never a returned error. -/
def relateGenericArg (R : TypeRelation) (a b : GenericArg) : Res GenericArg :=
  match a, b with
  | .lifetime aLt, .lifetime bLt => (R.regions aLt bLt).map GenericArg.lifetime
  | .type aTy, .type bTy => (R.tys aTy bTy).map GenericArg.type
  | .const aCt, .const bCt => (R.consts aCt bCt).map GenericArg.const
  | _, _ => .fatal

/-- `Relate for Term`: both sides must carry the same alternative; a kind
mismatch is an ordinary `TypeError::Mismatch` (reachable from user input),
not a panic. -/
def relateTerm (R : TypeRelation) (a b : Term) : Res Term :=
  match a, b with
  | .ty aTy, .ty bTy => (R.tys aTy bTy).map Term.ty
  | .const aCt, .const bCt => (R.consts aCt bCt).map Term.const
  | _, _ => .err .mismatch

/-- `Relate for ty::ExistentialProjection`: identities must match, then the
term and the args relate invariantly (term first). -/
def relateExistentialProjection (R : TypeRelation) (a b : ExistentialProjection) :
    Res ExistentialProjection :=
  match a, b with
  | .mk aDef aArgs aTerm, .mk bDef bArgs bTerm =>
    if aDef ≠ bDef then
      .err (.projectionMismatched (expected_found aDef bDef))
    else
      Res.bind (R.relateWithVarianceTerm .invariant .none aTerm bTerm) fun term =>
      Res.bind (R.relateWithVarianceArgs .invariant .none aArgs bArgs) fun args =>
      .ok (.mk aDef args term)

/-- `Relate for ty::ExistentialTraitRef`: identities must match (else an
incompatible-traits error), args relate invariantly. -/
def relateExistentialTraitRef (R : TypeRelation) (a b : ExistentialTraitRef) :
    Res ExistentialTraitRef :=
  match a, b with
  | .mk aDef aArgs, .mk bDef bArgs =>
    if aDef ≠ bDef then
      .err (.traits (expected_found aDef bDef))
    else
      Res.bind (relate_args_invariantly R aArgs bArgs) fun args =>
      .ok (.mk aDef args)

/-- `Relate for Pattern` (range patterns): both bounds must be present on
both sides or absent on both sides (else `TypeError::Mismatch`); present
bounds relate as constants; a mismatched inclusive-end flag hits a `todo!()`
(fatal placeholder in the source). -/
def relatePattern (R : TypeRelation) (a b : Pattern) : Res Pattern :=
  match a, b with
  | .range startA endA incA, .range startB endB incB =>
    let relateOptConst : Option Const → Option Const → Res (Option Const) := fun x y =>
      match x, y with
      | Option.none, Option.none => .ok Option.none
      | some cx, some cy => (R.consts cx cy).map some
      | _, _ => .err .mismatch
    Res.bind (relateOptConst startA startB) fun start =>
    Res.bind (relateOptConst endA endB) fun stop =>
    if incA ≠ incB then .fatal
    else .ok (.range start stop incA)

/-- Modelled from the spec: `ExistentialPredicateStableCmpExt::stable_cmp` is
declared outside this repository's sources (only its caller is here).  Per
the spec it is "a total, binder-insensitive stable ordering" on existential
predicates.  Modelled as comparison of a numeric key: the variant rank
(trait capability < projection capability < auto-trait marker) paired with
the defining-site identity.  Binder-insensitivity is forced by the caller,
which compares the binder-skipped predicates. -/
def ExistentialPredicate.stableKey : ExistentialPredicate → Nat
  | .trait (.mk d _) => Nat.pair 0 d
  | .projection (.mk d _ _) => Nat.pair 1 d
  | .autoTrait d => Nat.pair 2 d

/-- The sort order used on each side's predicate list: `stable_cmp` applied
to the binder-skipped (`skip_binder`) predicates. -/
def predLe (a b : Binder ExistentialPredicate) : Prop :=
  a.value.stableKey ≤ b.value.stableKey

instance : DecidableRel predLe := fun a b =>
  Nat.decLe a.value.stableKey b.value.stableKey

instance : IsTotal (Binder ExistentialPredicate) predLe :=
  ⟨fun a b => Nat.le_total a.value.stableKey b.value.stableKey⟩

instance : IsTrans (Binder ExistentialPredicate) predLe :=
  ⟨fun _ _ _ => Nat.le_trans⟩

/-- `Vec::dedup`: remove consecutive equal elements (structural equality on
the full binder, including its bound variables). -/
def dedupAdjacent : List (Binder ExistentialPredicate) → List (Binder ExistentialPredicate)
  | [] => []
  | [x] => [x]
  | x :: y :: t =>
    if ExistentialPredicate.beqPoly x y then dedupAdjacent (y :: t)
    else x :: dedupAdjacent (y :: t)

/-- The canonicalization applied to each side in
`Relate for &ty::List<PolyExistentialPredicate>`: copy, stable-sort by the
binder-insensitive ordering, deduplicate adjacent equal entries.  (Rust's
`sort_by` is a stable sort; modelled with Mathlib's stable `insertionSort`.) -/
def canonicalizePreds (l : List (Binder ExistentialPredicate)) :
    List (Binder ExistentialPredicate) :=
  dedupAdjacent (List.insertionSort predLe l)

/-- `Relate for &ty::List<PolyExistentialPredicate>`: canonicalize both
sides; unequal canonical lengths is an immediate set-mismatch error (naming
the two original lists); otherwise zip positionally and require
same-alternative pairing, relating trait/projection payloads under the
shared binder (rebound to the left entry's binder) and requiring exact
equality of auto-trait markers. -/
def relateExistentialPredicates (R : TypeRelation)
    (a b : List (Binder ExistentialPredicate)) : Res (List (Binder ExistentialPredicate)) :=
  let a_v := canonicalizePreds a
  let b_v := canonicalizePreds b
  if a_v.length ≠ b_v.length then
    .err (.existentialMismatch (expected_found a b))
  else
    Res.mapList (fun p =>
      match p.1, p.2 with
      | ⟨varsA, .trait ta⟩, ⟨varsB, .trait tb⟩ =>
        (R.bindersExTraitRef ⟨varsA, ta⟩ ⟨varsB, tb⟩).map fun r =>
          (⟨varsA, .trait r.value⟩ : Binder ExistentialPredicate)
      | ⟨varsA, .projection pa⟩, ⟨varsB, .projection pb⟩ =>
        (R.bindersExProjection ⟨varsA, pa⟩ ⟨varsB, pb⟩).map fun r =>
          (⟨varsA, .projection r.value⟩ : Binder ExistentialPredicate)
      | ⟨varsA, .autoTrait da⟩, ⟨_, .autoTrait db⟩ =>
        if da = db then .ok (⟨varsA, .autoTrait da⟩ : Binder ExistentialPredicate)
        else .err (.existentialMismatch (expected_found a b))
      | _, _ => .err (.existentialMismatch (expected_found a b)))
      (a_v.zip b_v)

/-- `ty::Const::try_to_target_usize`: the concrete scalar of a
`ConstKind::Value`, `None` for every other kind (no evaluation happens
here). -/
def Const.tryToTargetUsize : Const → Option Nat
  | .value v => some v
  | _ => Option.none

/-- `structurally_relate_tys`: the structural type relator.  Total dispatch
over the two types' outer kinds; inference and bound variables reaching it
are `bug!`s; an error marker on either side short-circuits to an error type;
a guarded structural arm whose guard fails falls through to the final
catch-all `Sorts` mismatch, as does every cross-kind pair. -/
def structurally_relate_tys (R : TypeRelation) (a b : Ty) : Res Ty :=
  match a, b with
  | .infer _, _ | _, .infer _ => .fatal
  | .bound _, _ | _, .bound _ => .fatal
  | .error guar, _ | _, .error guar => .ok (.error guar)
  | .never, _ | .char, _ | .bool, _ | .int _, _ | .uint _, _ | .float _, _ | .str, _ =>
    if Ty.beq a b then .ok a else .err (.sorts (expected_found a b))
  | .param aIdx _, .param bIdx _ =>
    if aIdx = bIdx then .ok a else .err (.sorts (expected_found a b))
  | .placeholder p1, .placeholder p2 =>
    if p1 = p2 then .ok a else .err (.sorts (expected_found a b))
  | .adt aDef aArgs, .adt bDef bArgs =>
    if aDef = bDef then (relate_item_args R aDef aArgs bArgs).map (Ty.adt aDef)
    else .err (.sorts (expected_found a b))
  | .foreign aId, .foreign bId =>
    if aId = bId then .ok (.foreign aId) else .err (.sorts (expected_found a b))
  | .dynamic aObj aRegion aRepr, .dynamic bObj bRegion bRepr =>
    if aRepr = bRepr then
      Res.bind (relateExistentialPredicates R aObj bObj) fun obj =>
      Res.bind (R.regions aRegion bRegion) fun r =>
      .ok (.dynamic obj r aRepr)
    else .err (.sorts (expected_found a b))
  | .coroutine aId aArgs, .coroutine bId bArgs =>
    if aId = bId then (relate_args_invariantly R aArgs bArgs).map (Ty.coroutine aId)
    else .err (.sorts (expected_found a b))
  | .coroutineWitness aId aArgs, .coroutineWitness bId bArgs =>
    if aId = bId then (relate_args_invariantly R aArgs bArgs).map (Ty.coroutineWitness aId)
    else .err (.sorts (expected_found a b))
  | .closure aId aArgs, .closure bId bArgs =>
    if aId = bId then (relate_args_invariantly R aArgs bArgs).map (Ty.closure aId)
    else .err (.sorts (expected_found a b))
  | .coroutineClosure aId aArgs, .coroutineClosure bId bArgs =>
    if aId = bId then (relate_args_invariantly R aArgs bArgs).map (Ty.coroutineClosure aId)
    else .err (.sorts (expected_found a b))
  | .rawPtr aTy aMutbl, .rawPtr bTy bMutbl =>
    if aMutbl ≠ bMutbl then .err .mutability
    else
      let vi : Variance × VarianceDiagInfo :=
        match aMutbl with
        | .not => (.covariant, .none)
        | .mut => (.invariant, .invariant a 0)
      (R.relateWithVarianceTy vi.1 vi.2 aTy bTy).map (fun t => .rawPtr t aMutbl)
  | .ref aR aTy aMutbl, .ref bR bTy bMutbl =>
    if aMutbl ≠ bMutbl then .err .mutability
    else
      let vi : Variance × VarianceDiagInfo :=
        match aMutbl with
        | .not => (.covariant, .none)
        | .mut => (.invariant, .invariant a 0)
      Res.bind (R.regions aR bR) fun r =>
      Res.bind (R.relateWithVarianceTy vi.1 vi.2 aTy bTy) fun t =>
      .ok (.ref r t aMutbl)
  | .array aT szA, .array bT szB =>
    Res.bind (R.tys aT bT) fun t =>
    match R.consts szA szB with
    | .ok sz => .ok (.array t sz)
    | .err e =>
      match szA.tryToTargetUsize, szB.tryToTargetUsize with
      | some szAVal, some szBVal =>
        if szAVal ≠ szBVal then .err (.fixedArraySize (expected_found szAVal szBVal))
        else .err e
      | _, _ => .err e
    | .fatal => .fatal
  | .slice aT, .slice bT => (R.tys aT bT).map Ty.slice
  | .tuple asElems, .tuple bsElems =>
    if asElems.length = bsElems.length then
      (Res.mapList (fun p => R.tys p.1 p.2) (asElems.zip bsElems)).map Ty.tuple
    else if ¬(asElems.isEmpty ∨ bsElems.isEmpty) then
      .err (.tupleSize (expected_found asElems.length bsElems.length))
    else
      .err (.sorts (expected_found a b))
  | .fnDef aDefId aArgs, .fnDef bDefId bArgs =>
    if aDefId = bDefId then (relate_item_args R aDefId aArgs bArgs).map (Ty.fnDef aDefId)
    else .err (.sorts (expected_found a b))
  | .fnPtr aFty, .fnPtr bFty => (R.bindersFnSig aFty bFty).map Ty.fnPtr
  | .alias aKind aData, .alias bKind bData =>
    Res.bind (relateAliasTy R aData bData) fun aliasTy =>
    if aKind = bKind then .ok (.alias aKind aliasTy) else .fatal
  | .pat aTy aPat, .pat bTy bPat =>
    Res.bind (R.tys aTy bTy) fun ty =>
    Res.bind (relatePattern R aPat bPat) fun patr =>
    .ok (.pat ty patr)
  | _, _ => .err (.sorts (expected_found a b))

/-- Dispatch of `structurally_relate_consts` over the two (already
feature-gate-expanded) constants.  Inference variables are `bug!`s;
an error marker on either side returns that side's constant unchanged;
same-index parameters, equal placeholders and equal concrete values match;
unevaluated constants with equal defining identity return the invariant
relation of their args (the release build skips the debug-only assertion
that both instantiated types agree); structured expressions with equal
operator tags relate their args invariantly; everything else is a
`ConstMismatch` naming both (possibly expanded) constants. -/
def structurally_relate_consts_dispatch (R : TypeRelation) (a b : Const) : Res Const :=
  match a, b with
  | .infer _, _ | _, .infer _ => .fatal
  | .error guar, _ => .ok (.error guar)
  | _, .error guar => .ok (.error guar)
  | .param aIdx aName, .param bIdx _ =>
    if aIdx = bIdx then .ok (.param aIdx aName)
    else .err (.constMismatch (expected_found a b))
  | .placeholder p1, .placeholder p2 =>
    if p1 = p2 then .ok a else .err (.constMismatch (expected_found a b))
  | .value aVal, .value bVal =>
    if aVal = bVal then .ok a else .err (.constMismatch (expected_found a b))
  | .unevaluated aDef aArgs, .unevaluated bDef bArgs =>
    if aDef = bDef then
      (R.relateWithVarianceArgs .invariant .none aArgs bArgs).map (Const.unevaluated aDef)
    else .err (.constMismatch (expected_found a b))
  | .expr aKind aArgs, .expr bKind bArgs =>
    if aKind = bKind then
      (relate_args_invariantly R aArgs bArgs).map (Const.expr aKind)
    else .err (.constMismatch (expected_found a b))
  | _, _ => .err (.constMismatch (expected_found a b))

/-- `structurally_relate_consts` proper: the optional `generic_const_exprs`
pre-pass expanding both sides through the abstract-const collaborator,
followed by the dispatch above. -/
def structurally_relate_consts (R : TypeRelation) (a0 b0 : Const) : Res Const :=
  let a := if R.tcx.generic_const_exprs then R.tcx.expand_abstract_consts a0 else a0
  let b := if R.tcx.generic_const_exprs then R.tcx.expand_abstract_consts b0 else b0
  structurally_relate_consts_dispatch R a b

/-- Two relate outcomes agree: same success/failure/fatal alternative, and on
success the same value (error payloads are not compared). -/
def sameOutcome {α : Type} : Res α → Res α → Prop
  | .ok x, .ok y => x = y
  | .err _, .err _ => True
  | .fatal, .fatal => True
  | _, _ => False

/-- A trivial type context for concrete test strategies. -/
def trivialTcx : TyCtxt where
  variances_of := fun _ => []
  type_of_instantiated := fun _ _ => .bool
  alias_kind_of := fun _ => .projection
  generic_const_exprs := false
  expand_abstract_consts := fun c => c

/-- A concrete equality-flavored strategy: every hook succeeds exactly on
structurally equal inputs (used to instantiate the parametric theorems at
concrete inputs). -/
def eqRel : TypeRelation where
  tcx := trivialTcx
  tys := fun a b => if Ty.beq a b then .ok a else .err (.sorts (expected_found a b))
  regions := fun a b => if a == b then .ok a else .err .mismatch
  consts := fun a b =>
    if Const.beq a b then .ok a else .err (.constMismatch (expected_found a b))
  relateWithVarianceTy := fun _ _ a b =>
    if Ty.beq a b then .ok a else .err (.sorts (expected_found a b))
  relateWithVarianceArg := fun _ _ a b =>
    if GenericArg.beq a b then .ok a else .err .mismatch
  relateWithVarianceArgs := fun _ _ a b =>
    if GenericArg.beqList a b then .ok a else .err .mismatch
  relateWithVarianceTerm := fun _ _ a b =>
    if Term.beq a b then .ok a else .err .mismatch
  bindersFnSig := fun a b =>
    if a.vars == b.vars && FnSig.beq a.value b.value then .ok a else .err .mismatch
  bindersExTraitRef := fun a b =>
    if a.vars == b.vars && ExistentialTraitRef.beq a.value b.value then .ok a
    else .err .mismatch
  bindersExProjection := fun a b =>
    if a.vars == b.vars && ExistentialProjection.beq a.value b.value then .ok a
    else .err .mismatch

/-- Whether a type is an inference variable or a bound variable (the kinds
the caller must intercept before structural relation). -/
def Ty.isInferOrBound : Ty → Bool
  | .infer _ => true
  | .bound _ => true
  | _ => false

/-- Whether a constant is an inference variable. -/
def Const.isInfer : Const → Bool
  | .infer _ => true
  | _ => false

/-- The wrapped kind of a `GenericArg` (lifetime / type / const). -/
def GenericArg.kindTag : GenericArg → Nat
  | .lifetime _ => 0
  | .type _ => 1
  | .const _ => 2

theorem srt_tuple_eq (R : TypeRelation) (ts1 ts2 : List Ty) :
    structurally_relate_tys R (.tuple ts1) (.tuple ts2) =
      (if ts1.length = ts2.length then
        (Res.mapList (fun p => R.tys p.1 p.2) (ts1.zip ts2)).map Ty.tuple
      else if ¬(ts1.isEmpty ∨ ts2.isEmpty) then
        .err (.tupleSize (expected_found ts1.length ts2.length))
      else
        .err (.sorts (expected_found (.tuple ts1) (.tuple ts2)))) := rfl

/-- C4: for every pair of tuple types given to the structural type relator,
equal arity relates the elements pairwise in order through the plain relate
entry; unequal arity with both tuples non-empty yields a tuple-size mismatch
naming both arities; unequal arity with one tuple empty yields the generic
sort-mismatch error naming both full types instead. -/
theorem claim_C4 (R : TypeRelation) (ts1 ts2 : List Ty) :
    (ts1.length = ts2.length →
      structurally_relate_tys R (.tuple ts1) (.tuple ts2) =
        (Res.mapList (fun p => R.tys p.1 p.2) (ts1.zip ts2)).map Ty.tuple) ∧
    (ts1.length ≠ ts2.length → ts1 ≠ [] → ts2 ≠ [] →
      structurally_relate_tys R (.tuple ts1) (.tuple ts2) =
        .err (.tupleSize (expected_found ts1.length ts2.length))) ∧
    (ts1.length ≠ ts2.length → (ts1 = [] ∨ ts2 = []) →
      structurally_relate_tys R (.tuple ts1) (.tuple ts2) =
        .err (.sorts (expected_found (.tuple ts1) (.tuple ts2)))) := by
  rw [srt_tuple_eq]
  refine ⟨?_, ?_, ?_⟩
  · intro h
    simp [h]
  · intro h h1 h2
    simp [h, List.isEmpty_iff, h1, h2]
  · intro h h1
    rcases h1 with h1 | h1 <;> subst h1 <;> simp_all [List.isEmpty_iff]

/-- C4 witness: a two-tuple against a three-tuple is a tuple-size mismatch
naming 2 and 3; the empty tuple against a one-tuple is a generic sorts
mismatch; equal arity relates elementwise. -/
theorem claim_C4_witness :
    structurally_relate_tys eqRel (.tuple [.bool, .char]) (.tuple [.bool, .char, .str]) =
        .err (.tupleSize (expected_found 2 3)) ∧
    structurally_relate_tys eqRel (.tuple []) (.tuple [.bool]) =
        .err (.sorts (expected_found (.tuple []) (.tuple [.bool]))) ∧
    structurally_relate_tys eqRel (.tuple [.bool, .char]) (.tuple [.bool, .char]) =
        .ok (.tuple [.bool, .char]) := by
  refine ⟨?_, ?_, ?_⟩
  · exact (claim_C4 eqRel [.bool, .char] [.bool, .char, .str]).2.1 (by decide)
      (by simp) (by simp)
  · exact (claim_C4 eqRel [] [.bool]).2.2 (by decide) (Or.inl rfl)
  · exact ((claim_C4 eqRel [.bool, .char] [.bool, .char]).1 rfl).trans rfl

theorem srt_dynamic_eq (R : TypeRelation) (p1 : List (Binder ExistentialPredicate))
    (r1 : Region) (rep1 : DynKind) (p2 : List (Binder ExistentialPredicate))
    (r2 : Region) (rep2 : DynKind) :
    structurally_relate_tys R (.dynamic p1 r1 rep1) (.dynamic p2 r2 rep2) =
      (if rep1 = rep2 then
        Res.bind (relateExistentialPredicates R p1 p2) fun obj =>
        Res.bind (R.regions r1 r2) fun r =>
        .ok (.dynamic obj r rep1)
      else .err (.sorts (expected_found (.dynamic p1 r1 rep1) (.dynamic p2 r2 rep2)))) := rfl

theorem srt_rawPtr_eq (R : TypeRelation) (t1 : Ty) (m1 : Mutability) (t2 : Ty)
    (m2 : Mutability) :
    structurally_relate_tys R (.rawPtr t1 m1) (.rawPtr t2 m2) =
      (if m1 ≠ m2 then .err .mutability
      else
        let vi : Variance × VarianceDiagInfo :=
          match m1 with
          | .not => (.covariant, .none)
          | .mut => (.invariant, .invariant (.rawPtr t1 m1) 0)
        (R.relateWithVarianceTy vi.1 vi.2 t1 t2).map (fun t => .rawPtr t m1)) := rfl

theorem srt_ref_eq (R : TypeRelation) (r1 : Region) (t1 : Ty) (m1 : Mutability)
    (r2 : Region) (t2 : Ty) (m2 : Mutability) :
    structurally_relate_tys R (.ref r1 t1 m1) (.ref r2 t2 m2) =
      (if m1 ≠ m2 then .err .mutability
      else
        let vi : Variance × VarianceDiagInfo :=
          match m1 with
          | .not => (.covariant, .none)
          | .mut => (.invariant, .invariant (.ref r1 t1 m1) 0)
        Res.bind (R.regions r1 r2) fun r =>
        Res.bind (R.relateWithVarianceTy vi.1 vi.2 t1 t2) fun t =>
        .ok (.ref r t m1)) := rfl

theorem srt_array_eq (R : TypeRelation) (t1 : Ty) (c1 : Const) (t2 : Ty) (c2 : Const) :
    structurally_relate_tys R (.array t1 c1) (.array t2 c2) =
      (Res.bind (R.tys t1 t2) fun t =>
        match R.consts c1 c2 with
        | .ok sz => .ok (.array t sz)
        | .err e =>
          match c1.tryToTargetUsize, c2.tryToTargetUsize with
          | some va, some vb =>
            if va ≠ vb then .err (.fixedArraySize (expected_found va vb)) else .err e
          | _, _ => .err e
        | .fatal => .fatal) := rfl

/-- C10: relating two trait-object types whose representation tags differ
does not produce a dedicated representation-mismatch error: the guard on the
dynamic-vs-dynamic arm fails and the pair falls through to the final
catch-all, a generic sort-mismatch error naming both full types. -/
theorem claim_C10 (R : TypeRelation) (p1 : List (Binder ExistentialPredicate))
    (r1 : Region) (rep1 : DynKind) (p2 : List (Binder ExistentialPredicate))
    (r2 : Region) (rep2 : DynKind) (h : rep1 ≠ rep2) :
    structurally_relate_tys R (.dynamic p1 r1 rep1) (.dynamic p2 r2 rep2) =
      .err (.sorts (expected_found (.dynamic p1 r1 rep1) (.dynamic p2 r2 rep2))) := by
  rw [srt_dynamic_eq]
  simp [h]

/-- C10 witness: a `dyn` object against a `dyn*` object with otherwise equal
components is a generic sorts mismatch. -/
theorem claim_C10_witness :
    structurally_relate_tys eqRel (.dynamic [] 0 .dyn) (.dynamic [] 0 .dynStar) =
      .err (.sorts (expected_found (.dynamic [] 0 .dyn) (.dynamic [] 0 .dynStar))) :=
  claim_C10 eqRel [] 0 .dyn [] 0 .dynStar (by decide)

/-- C2: for raw pointers and references, differing mutability flags yield a
plain Mutability error; matching mutable flags relate the pointees with
Invariant variance carrying diagnostic info tagging the outer type at
parameter index 0; matching immutable flags relate the pointees with
Covariant variance and no diagnostic info; references relate their regions
before their pointees; and when the flags already match, a pointee-relation
error is surfaced unchanged (no fresh Mutability error is produced). -/
theorem claim_C2 (R : TypeRelation) :
    (∀ t1 m1 t2 m2, m1 ≠ m2 →
      structurally_relate_tys R (.rawPtr t1 m1) (.rawPtr t2 m2) = .err .mutability) ∧
    (∀ r1 t1 m1 r2 t2 m2, m1 ≠ m2 →
      structurally_relate_tys R (.ref r1 t1 m1) (.ref r2 t2 m2) = .err .mutability) ∧
    (∀ t1 t2, structurally_relate_tys R (.rawPtr t1 .mut) (.rawPtr t2 .mut) =
      (R.relateWithVarianceTy .invariant (.invariant (.rawPtr t1 .mut) 0) t1 t2).map
        (fun t => .rawPtr t .mut)) ∧
    (∀ t1 t2, structurally_relate_tys R (.rawPtr t1 .not) (.rawPtr t2 .not) =
      (R.relateWithVarianceTy .covariant .none t1 t2).map (fun t => .rawPtr t .not)) ∧
    (∀ r1 t1 r2 t2, structurally_relate_tys R (.ref r1 t1 .mut) (.ref r2 t2 .mut) =
      (Res.bind (R.regions r1 r2) fun r =>
        Res.bind (R.relateWithVarianceTy .invariant (.invariant (.ref r1 t1 .mut) 0) t1 t2)
          fun t => .ok (.ref r t .mut))) ∧
    (∀ r1 t1 r2 t2, structurally_relate_tys R (.ref r1 t1 .not) (.ref r2 t2 .not) =
      (Res.bind (R.regions r1 r2) fun r =>
        Res.bind (R.relateWithVarianceTy .covariant .none t1 t2)
          fun t => .ok (.ref r t .not))) ∧
    (∀ t1 t2 e, R.relateWithVarianceTy .invariant (.invariant (.rawPtr t1 .mut) 0) t1 t2 =
        .err e →
      structurally_relate_tys R (.rawPtr t1 .mut) (.rawPtr t2 .mut) = .err e) ∧
    (∀ r1 t1 r2 t2 r e, R.regions r1 r2 = .ok r →
      R.relateWithVarianceTy .invariant (.invariant (.ref r1 t1 .mut) 0) t1 t2 = .err e →
      structurally_relate_tys R (.ref r1 t1 .mut) (.ref r2 t2 .mut) = .err e) := by
  refine ⟨?_, ?_, ?_, ?_, ?_, ?_, ?_, ?_⟩
  · intro t1 m1 t2 m2 h
    rw [srt_rawPtr_eq]
    simp [h]
  · intro r1 t1 m1 r2 t2 m2 h
    rw [srt_ref_eq]
    simp [h]
  · intro t1 t2
    rw [srt_rawPtr_eq]
    simp
  · intro t1 t2
    rw [srt_rawPtr_eq]
    simp
  · intro r1 t1 r2 t2
    rw [srt_ref_eq]
    simp
  · intro r1 t1 r2 t2
    rw [srt_ref_eq]
    simp
  · intro t1 t2 e h
    rw [srt_rawPtr_eq]
    simp [h, Res.map]
  · intro r1 t1 r2 t2 r e hr h
    rw [srt_ref_eq]
    simp [hr, h, Res.bind]

/-- C2 witness: mutability mismatch on raw pointers; and a mutable raw
pointer to bool against a mutable raw pointer to char surfaces the pointee
relation's sorts error, not a Mutability error. -/
theorem claim_C2_witness :
    structurally_relate_tys eqRel (.rawPtr .bool .not) (.rawPtr .bool .mut) =
      .err .mutability ∧
    structurally_relate_tys eqRel (.rawPtr .bool .mut) (.rawPtr .char .mut) =
      .err (.sorts (expected_found .bool .char)) := by
  constructor
  · exact (claim_C2 eqRel).1 .bool .not .bool .mut (by decide)
  · exact (claim_C2 eqRel).2.2.2.2.2.2.1 .bool .char (.sorts (expected_found .bool .char)) rfl

/-- C3: for array types the element types relate first (an element error is
surfaced unchanged regardless of the length constants); then the length
constants relate, and a failing length relation is replaced by the dedicated
fixed-array-size error carrying both concrete length values exactly when
both lengths are concrete known values that differ; in every other failing
case (either length not concrete, or equal concrete values) the original
constant-relation error propagates unchanged. -/
theorem claim_C3 (R : TypeRelation) (t1 t2 : Ty) (c1 c2 : Const) :
    (∀ e, R.tys t1 t2 = .err e →
      structurally_relate_tys R (.array t1 c1) (.array t2 c2) = .err e) ∧
    (∀ t sz, R.tys t1 t2 = .ok t → R.consts c1 c2 = .ok sz →
      structurally_relate_tys R (.array t1 c1) (.array t2 c2) = .ok (.array t sz)) ∧
    (∀ t e va vb, R.tys t1 t2 = .ok t → R.consts c1 c2 = .err e →
      c1.tryToTargetUsize = some va → c2.tryToTargetUsize = some vb → va ≠ vb →
      structurally_relate_tys R (.array t1 c1) (.array t2 c2) =
        .err (.fixedArraySize (expected_found va vb))) ∧
    (∀ t e, R.tys t1 t2 = .ok t → R.consts c1 c2 = .err e →
      (c1.tryToTargetUsize = Option.none ∨ c2.tryToTargetUsize = Option.none ∨
        c1.tryToTargetUsize = c2.tryToTargetUsize) →
      structurally_relate_tys R (.array t1 c1) (.array t2 c2) = .err e) := by
  refine ⟨?_, ?_, ?_, ?_⟩
  · intro e h
    rw [srt_array_eq]
    simp [h, Res.bind]
  · intro t sz ht hc
    rw [srt_array_eq]
    simp [ht, hc, Res.bind]
  · intro t e va vb ht hc h1 h2 hne
    rw [srt_array_eq]
    simp [ht, hc, h1, h2, hne, Res.bind]
  · intro t e ht hc hcase
    rw [srt_array_eq]
    simp only [ht, hc, Res.bind]
    rcases hcase with h | h | h
    · simp [h]
    · cases hx : c1.tryToTargetUsize <;> simp [h, hx]
    · cases hx : c1.tryToTargetUsize <;> cases hy : c2.tryToTargetUsize <;>
        simp_all

theorem structurally_relate_consts_no_gce (R : TypeRelation)
    (h : R.tcx.generic_const_exprs = false) (a b : Const) :
    structurally_relate_consts R a b = structurally_relate_consts_dispatch R a b := by
  unfold structurally_relate_consts
  rw [h]
  simp

/-- C5: for every pair of unevaluated constants with equal defining-site
identity given to the structural constant relator (with the
`generic_const_exprs` pre-pass inactive, its default), the result is exactly
the invariant relation of their argument lists mapped into an unevaluated
constant with that identity: it succeeds if and only if the invariant
argument relation succeeds, without evaluating either constant. -/
theorem claim_C5 (R : TypeRelation) (d : DefId) (aArgs bArgs : List GenericArg)
    (h : R.tcx.generic_const_exprs = false) :
    structurally_relate_consts R (.unevaluated d aArgs) (.unevaluated d bArgs) =
      (R.relateWithVarianceArgs .invariant .none aArgs bArgs).map (Const.unevaluated d) := by
  rw [structurally_relate_consts_no_gce R h]
  have heq : structurally_relate_consts_dispatch R (.unevaluated d aArgs) (.unevaluated d bArgs) =
      (if d = d then
        (R.relateWithVarianceArgs .invariant .none aArgs bArgs).map (Const.unevaluated d)
      else
        .err (.constMismatch
          (expected_found (.unevaluated d aArgs) (.unevaluated d bArgs)))) := rfl
  rw [heq]
  simp

/-- C5 witness: two unevaluated constants with the same identity whose
argument lists relate invariantly succeed with the related arguments, and
with argument lists that fail to relate the call fails, although both pairs
would evaluate identically for a constant function. -/
theorem claim_C5_witness :
    structurally_relate_consts eqRel (.unevaluated 7 [.type .bool]) (.unevaluated 7 [.type .bool]) =
      .ok (.unevaluated 7 [.type .bool]) ∧
    structurally_relate_consts eqRel (.unevaluated 7 [.type .bool]) (.unevaluated 7 [.type .char]) =
      .err .mismatch := by
  constructor
  · exact (claim_C5 eqRel 7 [.type .bool] [.type .bool] rfl).trans rfl
  · exact (claim_C5 eqRel 7 [.type .bool] [.type .char] rfl).trans rfl

/-- C6: error markers short-circuit asymmetrically between the two
structural relators.  In the structural type relator an error-marker type on
either side (the other side being neither an inference nor a bound variable,
which the caller must intercept) succeeds with a freshly built error type
carrying that side's diagnostic guarantee; in the structural constant
relator an error-marker constant on either side (the other side not an
inference variable) succeeds returning that side's constant value unchanged.
No new mismatch error is produced in either case. -/
theorem claim_C6 (R : TypeRelation) (g : Nat) :
    (∀ t : Ty, t.isInferOrBound = false →
      structurally_relate_tys R (.error g) t = .ok (.error g)) ∧
    (∀ t : Ty, t.isInferOrBound = false → (∀ g2, t ≠ .error g2) →
      structurally_relate_tys R t (.error g) = .ok (.error g)) ∧
    (R.tcx.generic_const_exprs = false →
      (∀ c : Const, c.isInfer = false →
        structurally_relate_consts R (.error g) c = .ok (.error g)) ∧
      (∀ c : Const, c.isInfer = false → (∀ g2, c ≠ .error g2) →
        structurally_relate_consts R c (.error g) = .ok (.error g))) := by
  refine ⟨?_, ?_, fun hg => ⟨?_, ?_⟩⟩
  · intro t ht
    cases t <;> first | rfl | simp [Ty.isInferOrBound] at ht
  · intro t ht hne
    cases t <;>
      first
        | rfl
        | exact absurd rfl (hne _)
        | simp [Ty.isInferOrBound] at ht
  · intro c hc
    rw [structurally_relate_consts_no_gce R hg]
    cases c <;> first | rfl | simp [Const.isInfer] at hc
  · intro c hc hne
    rw [structurally_relate_consts_no_gce R hg]
    cases c <;>
      first
        | rfl
        | exact absurd rfl (hne _)
        | simp [Const.isInfer] at hc

/-- C6 witness: an error type on either side of a sorts-incompatible partner
succeeds with that error type; an error constant on either side is returned
unchanged. -/
theorem claim_C6_witness :
    structurally_relate_tys eqRel (.error 3) (.tuple []) = .ok (.error 3) ∧
    structurally_relate_tys eqRel (.tuple []) (.error 3) = .ok (.error 3) ∧
    structurally_relate_consts eqRel (.error 3) (.value 0) = .ok (.error 3) ∧
    structurally_relate_consts eqRel (.value 0) (.error 3) = .ok (.error 3) := by
  refine ⟨?_, ?_, ?_, ?_⟩
  · exact (claim_C6 eqRel 3).1 (.tuple []) rfl
  · exact (claim_C6 eqRel 3).2.1 (.tuple []) rfl (fun g2 h => by cases h)
  · exact ((claim_C6 eqRel 3).2.2 rfl).1 (.value 0) rfl
  · exact ((claim_C6 eqRel 3).2.2 rfl).2 (.value 0) rfl (fun g2 h => by cases h)

/-- C8: relating two GenericArg values of differing wrapped kinds is a fatal
internal-consistency violation (a panic, not a returned error); equal
wrapped kinds delegate to the matching primitive hook and introduce no
panic of their own; relating two Term values of differing wrapped
alternatives returns the ordinary generic mismatch error instead, and equal
alternatives likewise delegate to the matching hook. -/
theorem claim_C8 (R : TypeRelation) :
    (∀ ra rb, relateGenericArg R (.lifetime ra) (.lifetime rb) =
      (R.regions ra rb).map GenericArg.lifetime) ∧
    (∀ ta tb, relateGenericArg R (.type ta) (.type tb) =
      (R.tys ta tb).map GenericArg.type) ∧
    (∀ ca cb, relateGenericArg R (.const ca) (.const cb) =
      (R.consts ca cb).map GenericArg.const) ∧
    (∀ ra rb, R.regions ra rb ≠ .fatal →
      relateGenericArg R (.lifetime ra) (.lifetime rb) ≠ .fatal) ∧
    (∀ ta tb, R.tys ta tb ≠ .fatal →
      relateGenericArg R (.type ta) (.type tb) ≠ .fatal) ∧
    (∀ ca cb, R.consts ca cb ≠ .fatal →
      relateGenericArg R (.const ca) (.const cb) ≠ .fatal) ∧
    (∀ a b : GenericArg, a.kindTag ≠ b.kindTag → relateGenericArg R a b = .fatal) ∧
    (∀ t c, relateTerm R (.ty t) (.const c) = .err .mismatch) ∧
    (∀ c t, relateTerm R (.const c) (.ty t) = .err .mismatch) ∧
    (∀ ta tb, relateTerm R (.ty ta) (.ty tb) = (R.tys ta tb).map Term.ty) ∧
    (∀ ca cb, relateTerm R (.const ca) (.const cb) = (R.consts ca cb).map Term.const) := by
  refine ⟨fun _ _ => rfl, fun _ _ => rfl, fun _ _ => rfl, ?_, ?_, ?_, ?_,
    fun _ _ => rfl, fun _ _ => rfl, fun _ _ => rfl, fun _ _ => rfl⟩
  · intro ra rb h
    have heq : relateGenericArg R (.lifetime ra) (.lifetime rb) =
        (R.regions ra rb).map GenericArg.lifetime := rfl
    rw [heq]
    cases hr : R.regions ra rb
    · simp [Res.map]
    · simp [Res.map]
    · exact absurd hr h
  · intro ta tb h
    have heq : relateGenericArg R (.type ta) (.type tb) =
        (R.tys ta tb).map GenericArg.type := rfl
    rw [heq]
    cases hr : R.tys ta tb
    · simp [Res.map]
    · simp [Res.map]
    · exact absurd hr h
  · intro ca cb h
    have heq : relateGenericArg R (.const ca) (.const cb) =
        (R.consts ca cb).map GenericArg.const := rfl
    rw [heq]
    cases hr : R.consts ca cb
    · simp [Res.map]
    · simp [Res.map]
    · exact absurd hr h
  · intro a b h
    cases a <;> cases b <;> simp_all [GenericArg.kindTag, relateGenericArg]

/-- C8 witness: a lifetime against a type panics; a lifetime against a
lifetime delegates to the regions hook and does not panic; a type term
against a const term is an ordinary mismatch error. -/
theorem claim_C8_witness :
    relateGenericArg eqRel (.lifetime 0) (.type .bool) = .fatal ∧
    relateGenericArg eqRel (.lifetime 0) (.lifetime 0) ≠ .fatal ∧
    relateTerm eqRel (.ty .bool) (.const (.value 1)) = .err .mismatch := by
  refine ⟨?_, ?_, ?_⟩
  · exact (claim_C8 eqRel).2.2.2.2.2.2.1 (.lifetime 0) (.type .bool) (by decide)
  · exact (claim_C8 eqRel).2.2.2.1 0 0 (by simp [eqRel, trivialTcx])
  · exact (claim_C8 eqRel).2.2.2.2.2.2.2.1 .bool (.value 1)

/-- C3 witness: relating `[bool; 4]` against `[bool; 5]` with both lengths
concrete fails with a fixed-array-size mismatch carrying 4 and 5; relating
`[bool; N]` (a generic parameter length) against `[bool; 5]` falls back to
the underlying constant-relation error. -/
theorem claim_C3_witness :
    structurally_relate_tys eqRel (.array .bool (.value 4)) (.array .bool (.value 5)) =
      .err (.fixedArraySize (expected_found 4 5)) ∧
    structurally_relate_tys eqRel (.array .bool (.param 0 0)) (.array .bool (.value 5)) =
      .err (.constMismatch (expected_found (.param 0 0) (.value 5))) := by
  constructor
  · exact (claim_C3 eqRel .bool .bool (.value 4) (.value 5)).2.2.1 .bool
      (.constMismatch (expected_found (.value 4) (.value 5))) 4 5 rfl rfl rfl rfl (by decide)
  · exact (claim_C3 eqRel .bool .bool (.param 0 0) (.value 5)).2.2.2 .bool
      (.constMismatch (expected_found (.param 0 0) (.value 5))) rfl rfl (Or.inl rfl)

theorem relateFnSigEntries_params_ok (R : TypeRelation) (o1 o2 : Ty) :
    ∀ (pairs : List (Ty × Ty)) (i : Nat) (ts : List Ty),
      Res.mapList (fun p => R.relateWithVarianceTy .contravariant .none p.1 p.2) pairs =
        .ok ts →
      relateFnSigEntries R i (pairs.map (fun p => (p, false)) ++ [((o1, o2), true)]) =
        (match R.tys o1 o2 with
         | .ok t => .ok (ts ++ [t])
         | .err e => .err (retagFnSigError (i + pairs.length) e)
         | .fatal => .fatal) := by
  intro pairs
  induction pairs with
  | nil =>
    intro i ts h
    simp only [Res.mapList, Res.ok.injEq] at h
    subst h
    cases hr : R.tys o1 o2 <;>
      simp [relateFnSigEntries, hr, Res.map, Res.mapList]
  | cons p ps ih =>
    intro i ts h
    simp only [Res.mapList] at h
    cases hf : R.relateWithVarianceTy .contravariant .none p.1 p.2 with
    | ok y =>
      rw [hf] at h
      cases hm : Res.mapList
          (fun p => R.relateWithVarianceTy .contravariant .none p.1 p.2) ps with
      | ok ts2 =>
        rw [hm] at h
        simp only [Res.map, Res.ok.injEq] at h
        subst h
        have hrec := ih (i + 1) ts2 hm
        have hidx : i + 1 + ps.length = i + (p :: ps).length := by
          simp only [List.length_cons]
          omega
        rw [hidx] at hrec
        simp only [List.map_cons, List.cons_append, relateFnSigEntries, if_neg, hf,
          Bool.false_eq_true, reduceIte, List.append_eq]
        rw [hrec]
        cases hr : R.tys o1 o2 <;> simp [Res.map]
      | err e =>
        rw [hm] at h
        simp [Res.map] at h
      | fatal =>
        rw [hm] at h
        simp [Res.map] at h
    | err e =>
      rw [hf] at h
      simp at h
    | fatal =>
      rw [hf] at h
      simp at h

theorem relateFnSigEntries_params_err (R : TypeRelation) (x y : Ty)
    (post : List (Ty × Ty)) (tail : List ((Ty × Ty) × Bool)) (e : TypeError)
    (he : R.relateWithVarianceTy .contravariant .none x y = .err e) :
    ∀ (pre : List (Ty × Ty)) (i : Nat) (ts : List Ty),
      Res.mapList (fun p => R.relateWithVarianceTy .contravariant .none p.1 p.2) pre =
        .ok ts →
      relateFnSigEntries R i
          ((pre ++ (x, y) :: post).map (fun p => (p, false)) ++ tail) =
        .err (retagFnSigError (i + pre.length) e) := by
  intro pre
  induction pre with
  | nil =>
    intro i ts _
    simp [relateFnSigEntries, he]
  | cons p ps ih =>
    intro i ts h
    simp only [Res.mapList] at h
    cases hf : R.relateWithVarianceTy .contravariant .none p.1 p.2 with
    | ok z =>
      rw [hf] at h
      cases hm : Res.mapList
          (fun p => R.relateWithVarianceTy .contravariant .none p.1 p.2) ps with
      | ok ts2 =>
        have hrec := ih (i + 1) ts2 hm
        have hidx : i + 1 + ps.length = i + (p :: ps).length := by
          simp only [List.length_cons]
          omega
        rw [hidx] at hrec
        simp only [List.cons_append, List.map_cons, relateFnSigEntries, hf,
          Bool.false_eq_true, reduceIte, List.append_eq]
        rw [hrec]
        simp [Res.map]
      | err e2 =>
        rw [hm] at h
        simp [Res.map] at h
      | fatal =>
        rw [hm] at h
        simp [Res.map] at h
    | err e2 =>
      rw [hf] at h
      simp at h
    | fatal =>
      rw [hf] at h
      simp at h

/-- C1: for every pair of function signatures, relation fails with a
variadic-mismatch error naming both variadic flags whenever the two
`c_variadic` flags differ, regardless of all other components; when the
flags agree, safety and ABI are related by plain equality (each mismatch a
dedicated error naming both sides), a parameter-count difference yields the
argument-count error, each parameter type is related with Contravariant
variance while the return type is related through the plain relate entry,
and a sort or mutability sub-error on a parameter is re-tagged with that
parameter's positional index. -/
theorem claim_C1 (R : TypeRelation) (a b : FnSig) :
    (a.c_variadic ≠ b.c_variadic →
      relateFnSig R a b =
        .err (.variadicMismatch (expected_found a.c_variadic b.c_variadic))) ∧
    (a.c_variadic = b.c_variadic → a.safety ≠ b.safety →
      relateFnSig R a b = .err (.safetyMismatch (expected_found a.safety b.safety))) ∧
    (a.c_variadic = b.c_variadic → a.safety = b.safety → a.abi ≠ b.abi →
      relateFnSig R a b = .err (.abiMismatch (expected_found a.abi b.abi))) ∧
    (a.c_variadic = b.c_variadic → a.safety = b.safety → a.abi = b.abi →
      a.inputs.length ≠ b.inputs.length → relateFnSig R a b = .err .argCount) ∧
    (a.c_variadic = b.c_variadic → a.safety = b.safety → a.abi = b.abi →
      a.inputs.length = b.inputs.length →
      ∀ ts t,
        Res.mapList (fun p => R.relateWithVarianceTy .contravariant .none p.1 p.2)
          (a.inputs.zip b.inputs) = .ok ts →
        R.tys a.output b.output = .ok t →
        relateFnSig R a b = .ok (.mk (ts ++ [t]) a.c_variadic a.safety a.abi)) ∧
    (a.c_variadic = b.c_variadic → a.safety = b.safety → a.abi = b.abi →
      a.inputs.length = b.inputs.length →
      ∀ pre x y post ts ef, a.inputs.zip b.inputs = pre ++ (x, y) :: post →
        Res.mapList (fun p => R.relateWithVarianceTy .contravariant .none p.1 p.2)
          pre = .ok ts →
        R.relateWithVarianceTy .contravariant .none x y = .err (.sorts ef) →
        relateFnSig R a b = .err (.argumentSorts ef pre.length)) ∧
    (a.c_variadic = b.c_variadic → a.safety = b.safety → a.abi = b.abi →
      a.inputs.length = b.inputs.length →
      ∀ pre x y post ts, a.inputs.zip b.inputs = pre ++ (x, y) :: post →
        Res.mapList (fun p => R.relateWithVarianceTy .contravariant .none p.1 p.2)
          pre = .ok ts →
        R.relateWithVarianceTy .contravariant .none x y = .err .mutability →
        relateFnSig R a b = .err (.argumentMutability pre.length)) := by
  refine ⟨?_, ?_, ?_, ?_, ?_, ?_, ?_⟩
  · intro h
    simp [relateFnSig, h]
  · intro hv hs
    simp [relateFnSig, hv, relateSafety, hs, Res.bind]
  · intro hv hs hab
    simp [relateFnSig, hv, relateSafety, hs, relateAbi, hab, Res.bind]
  · intro hv hs hab hlen
    simp [relateFnSig, hv, relateSafety, hs, relateAbi, hab, hlen, Res.bind]
  · intro hv hs hab hlen ts t hparams hout
    simp only [relateFnSig, hv, relateSafety, hs, relateAbi, hab, hlen, Res.bind,
      ne_eq, not_true_eq_false, reduceIte, beq_self_eq_true]
    rw [relateFnSigEntries_params_ok R a.output b.output (a.inputs.zip b.inputs) 0 ts
      hparams, hout]
  · intro hv hs hab hlen pre x y post ts ef hzip hpre hx
    simp only [relateFnSig, hv, relateSafety, hs, relateAbi, hab, hlen, Res.bind,
      ne_eq, not_true_eq_false, reduceIte, beq_self_eq_true]
    rw [hzip, relateFnSigEntries_params_err R x y post _ _ hx pre 0 ts hpre]
    simp [retagFnSigError]
  · intro hv hs hab hlen pre x y post ts hzip hpre hx
    simp only [relateFnSig, hv, relateSafety, hs, relateAbi, hab, hlen, Res.bind,
      ne_eq, not_true_eq_false, reduceIte, beq_self_eq_true]
    rw [hzip, relateFnSigEntries_params_err R x y post _ _ hx pre 0 ts hpre]
    simp [retagFnSigError]

/-- C9: in function-signature relation the positional re-tagging also
applies to the return-type slot: a sort mismatch arising while relating the
return type is re-tagged as an argument-sort error whose index equals the
number of input parameters (the output occupies the last position of the
enumerated inputs-then-output sequence), and a mutability mismatch there
likewise becomes an argument-mutability error with that index. -/
theorem claim_C9 (R : TypeRelation) (a b : FnSig)
    (hv : a.c_variadic = b.c_variadic) (hs : a.safety = b.safety)
    (hab : a.abi = b.abi) (hlen : a.inputs.length = b.inputs.length) (ts : List Ty)
    (hparams : Res.mapList (fun p => R.relateWithVarianceTy .contravariant .none p.1 p.2)
      (a.inputs.zip b.inputs) = .ok ts) :
    (∀ ef, R.tys a.output b.output = .err (.sorts ef) →
      relateFnSig R a b = .err (.argumentSorts ef a.inputs.length)) ∧
    (R.tys a.output b.output = .err .mutability →
      relateFnSig R a b = .err (.argumentMutability a.inputs.length)) := by
  have hlen2 : (a.inputs.zip b.inputs).length = a.inputs.length := by
    rw [List.length_zip, ← hlen, Nat.min_self]
  constructor
  · intro ef hout
    simp only [relateFnSig, hv, relateSafety, hs, relateAbi, hab, hlen, Res.bind,
      ne_eq, not_true_eq_false, reduceIte, beq_self_eq_true]
    rw [relateFnSigEntries_params_ok R a.output b.output (a.inputs.zip b.inputs) 0 ts
      hparams, hout]
    simp [retagFnSigError, hlen2, hlen]
  · intro hout
    simp only [relateFnSig, hv, relateSafety, hs, relateAbi, hab, hlen, Res.bind,
      ne_eq, not_true_eq_false, reduceIte, beq_self_eq_true]
    rw [relateFnSigEntries_params_ok R a.output b.output (a.inputs.zip b.inputs) 0 ts
      hparams, hout]
    simp [retagFnSigError, hlen2, hlen]

/-- C1 witness: a variadic mismatch is fatal regardless of the rest; a
safety mismatch names both qualifiers; a parameter sorts error is re-tagged
with the parameter's index 0; relating a signature with itself succeeds. -/
theorem claim_C1_witness :
    relateFnSig eqRel (.mk [.bool, .char] false .safe 0) (.mk [.bool, .char] true .safe 0) =
      .err (.variadicMismatch (expected_found false true)) ∧
    relateFnSig eqRel (.mk [.bool, .char] false .safe 0) (.mk [.bool, .char] false .unsaf 0) =
      .err (.safetyMismatch (expected_found .safe .unsaf)) ∧
    relateFnSig eqRel (.mk [.bool, .char] false .safe 0) (.mk [.char, .char] false .safe 0) =
      .err (.argumentSorts (expected_found .bool .char) 0) ∧
    relateFnSig eqRel (.mk [.bool, .char] false .safe 0) (.mk [.bool, .char] false .safe 0) =
      .ok (.mk [.bool, .char] false .safe 0) := by
  refine ⟨?_, ?_, ?_, ?_⟩
  · exact (claim_C1 eqRel (.mk [.bool, .char] false .safe 0)
      (.mk [.bool, .char] true .safe 0)).1 (by decide)
  · exact (claim_C1 eqRel (.mk [.bool, .char] false .safe 0)
      (.mk [.bool, .char] false .unsaf 0)).2.1 rfl (by decide)
  · exact (claim_C1 eqRel (.mk [.bool, .char] false .safe 0)
      (.mk [.char, .char] false .safe 0)).2.2.2.2.2.1 rfl rfl rfl rfl [] .bool .char [] []
      (expected_found .bool .char) rfl rfl rfl
  · exact ((claim_C1 eqRel (.mk [.bool, .char] false .safe 0)
      (.mk [.bool, .char] false .safe 0)).2.2.2.2.1 rfl rfl rfl rfl [.bool] .char
      rfl rfl).trans rfl

/-- C9 witness: a return-type sorts mismatch on a one-parameter signature is
re-tagged as an argument-sort error at index 1 (the number of inputs). -/
theorem claim_C9_witness :
    relateFnSig eqRel (.mk [.bool, .char] false .safe 0) (.mk [.bool, .str] false .safe 0) =
      .err (.argumentSorts (expected_found .char .str) 1) :=
  (claim_C9 eqRel (.mk [.bool, .char] false .safe 0) (.mk [.bool, .str] false .safe 0)
    rfl rfl rfl rfl [.bool] rfl).1 (expected_found .char .str) rfl

theorem sameOutcome_refl {α : Type} (r : Res α) : sameOutcome r r := by
  cases r <;> simp [sameOutcome]

theorem sameOutcome_map {α β : Type} (k : α → β) {r1 r2 : Res α}
    (h : sameOutcome r1 r2) : sameOutcome (r1.map k) (r2.map k) := by
  cases r1 <;> cases r2 <;> simp_all [sameOutcome, Res.map]

theorem sameOutcome_mapList {α β : Type} (f g : α → Res β) :
    ∀ l : List α, (∀ x ∈ l, sameOutcome (f x) (g x)) →
      sameOutcome (Res.mapList f l) (Res.mapList g l) := by
  intro l
  induction l with
  | nil => intro _; simp [Res.mapList, sameOutcome]
  | cons x t ih =>
    intro h
    have hx := h x (by simp)
    have ht := ih (fun y hy => h y (by simp [hy]))
    simp only [Res.mapList]
    cases hfx : f x <;> cases hgx : g x <;> rw [hfx, hgx] at hx <;>
      simp only [sameOutcome] at hx <;> try exact hx.elim
    · subst hx
      exact sameOutcome_map _ ht
    · exact trivial
    · exact trivial

theorem eq_of_perm_sorted_antisymmOn :
    ∀ (l1 l2 : List (Binder ExistentialPredicate)), l1.Perm l2 →
      l1.Sorted predLe → l2.Sorted predLe →
      (∀ x ∈ l1, ∀ y ∈ l1, predLe x y → predLe y x → x = y) → l1 = l2 := by
  intro l1
  induction l1 with
  | nil =>
    intro l2 hp _ _ _
    exact hp.nil_eq
  | cons x t1 ih =>
    intro l2 hp hs1 hs2 hanti
    cases l2 with
    | nil => exact absurd hp.symm.nil_eq (by simp)
    | cons y t2 =>
      have hxy : x = y := by
        have hxl2 : x ∈ y :: t2 := hp.subset (List.mem_cons_self x t1)
        rcases List.mem_cons.mp hxl2 with h | hxt2
        · exact h
        · have hyl1 : y ∈ x :: t1 := hp.symm.subset (List.mem_cons_self y t2)
          rcases List.mem_cons.mp hyl1 with h | hyt1
          · exact h.symm
          · exact hanti x (List.mem_cons_self x t1) y (List.mem_cons_of_mem x hyt1)
              (List.rel_of_sorted_cons hs1 y hyt1)
              (List.rel_of_sorted_cons hs2 x hxt2)
      subst hxy
      have ht : t1 = t2 :=
        ih t2 ((List.perm_cons x).mp hp) hs1.of_cons hs2.of_cons
          (fun u hu v hv => hanti u (List.mem_cons_of_mem x hu) v (List.mem_cons_of_mem x hv))
      rw [ht]

theorem canonicalizePreds_perm (l l' : List (Binder ExistentialPredicate))
    (hp : l'.Perm l)
    (h : ∀ x ∈ l, ∀ y ∈ l, predLe x y → predLe y x → x = y) :
    canonicalizePreds l' = canonicalizePreds l := by
  unfold canonicalizePreds
  have hsorted : List.insertionSort predLe l' = List.insertionSort predLe l := by
    apply eq_of_perm_sorted_antisymmOn
    · exact (List.perm_insertionSort predLe l').trans
        (hp.trans (List.perm_insertionSort predLe l).symm)
    · exact List.sorted_insertionSort predLe l'
    · exact List.sorted_insertionSort predLe l
    · intro u hu v hv
      exact h u (hp.subset ((List.mem_insertionSort predLe).mp hu))
        v (hp.subset ((List.mem_insertionSort predLe).mp hv))
  rw [hsorted]

/-- C7 (amended): existential-predicate-set relation is order-independent
provided the binder-insensitive sort ordering separates each side's
predicates: if within each original list any two entries comparing equal
under the ordering are identical, then permuting either side's predicate
list before the call changes neither the success/failure outcome nor the
resulting canonical set (the payload of a set-mismatch error may still name
the permuted originals). -/
theorem claim_C7 (R : TypeRelation) (a b a' b' : List (Binder ExistentialPredicate))
    (hpa : a'.Perm a) (hpb : b'.Perm b)
    (ha : ∀ x ∈ a, ∀ y ∈ a, predLe x y → predLe y x → x = y)
    (hb : ∀ x ∈ b, ∀ y ∈ b, predLe x y → predLe y x → x = y) :
    sameOutcome (relateExistentialPredicates R a' b')
      (relateExistentialPredicates R a b) := by
  have hca := canonicalizePreds_perm a a' hpa ha
  have hcb := canonicalizePreds_perm b b' hpb hb
  unfold relateExistentialPredicates
  rw [hca, hcb]
  by_cases hlen : (canonicalizePreds a).length ≠ (canonicalizePreds b).length
  · simp [hlen, sameOutcome]
  · simp only [hlen, if_neg, reduceIte]
    apply sameOutcome_mapList
    intro p pmem
    rcases p with ⟨⟨v1, q1⟩, ⟨v2, q2⟩⟩
    cases q1 <;> cases q2 <;>
      first
        | exact sameOutcome_refl _
        | (rename_i da db
           by_cases hd : da = db <;> simp [hd, sameOutcome])
        | simp [sameOutcome]

/-- C7 witness (of the amended statement): two auto-trait predicates with
distinct identities have distinct sort keys, so permuting the left list
leaves the outcome and canonical result unchanged; the unpermuted call
itself evaluates to success on the canonical (sorted) set. -/
theorem claim_C7_witness :
    sameOutcome
      (relateExistentialPredicates eqRel
        [⟨[], .autoTrait 2⟩, ⟨[], .autoTrait 1⟩]
        [⟨[], .autoTrait 1⟩, ⟨[], .autoTrait 2⟩])
      (relateExistentialPredicates eqRel
        [⟨[], .autoTrait 1⟩, ⟨[], .autoTrait 2⟩]
        [⟨[], .autoTrait 1⟩, ⟨[], .autoTrait 2⟩]) ∧
    relateExistentialPredicates eqRel
        [⟨[], .autoTrait 1⟩, ⟨[], .autoTrait 2⟩]
        [⟨[], .autoTrait 1⟩, ⟨[], .autoTrait 2⟩] =
      .ok [⟨[], .autoTrait 1⟩, ⟨[], .autoTrait 2⟩] := by
  constructor
  · apply claim_C7 eqRel
      ([⟨[], .autoTrait 1⟩, ⟨[], .autoTrait 2⟩] : List (Binder ExistentialPredicate))
      ([⟨[], .autoTrait 1⟩, ⟨[], .autoTrait 2⟩] : List (Binder ExistentialPredicate))
      ([⟨[], .autoTrait 2⟩, ⟨[], .autoTrait 1⟩] : List (Binder ExistentialPredicate))
      ([⟨[], .autoTrait 1⟩, ⟨[], .autoTrait 2⟩] : List (Binder ExistentialPredicate))
      (List.Perm.swap (⟨[], .autoTrait 1⟩ : Binder ExistentialPredicate)
        ⟨[], .autoTrait 2⟩ [])
      (List.Perm.refl _)
    all_goals
      intro x hx y hy h1 h2
      fin_cases hx <;> fin_cases hy <;>
        first
          | rfl
          | exact absurd h2 (by decide)
          | exact absurd h1 (by decide)
  · rfl

/-- C7 counterexample: the claim fails as stated.  Two trait predicates
identical up to their binders compare equal under the binder-insensitive
ordering, so the stable sort preserves their input order; with a strategy
whose binder hook distinguishes them, permuting the left-hand list flips the
relation from success to failure. -/
theorem claim_C7_counterexample :
    List.Perm
      [(⟨[1], .trait (.mk 5 [])⟩ : Binder ExistentialPredicate), ⟨[0], .trait (.mk 5 [])⟩]
      [⟨[0], .trait (.mk 5 [])⟩, ⟨[1], .trait (.mk 5 [])⟩] ∧
    relateExistentialPredicates eqRel
        [⟨[0], .trait (.mk 5 [])⟩, ⟨[1], .trait (.mk 5 [])⟩]
        [⟨[0], .trait (.mk 5 [])⟩, ⟨[1], .trait (.mk 5 [])⟩] =
      .ok [⟨[0], .trait (.mk 5 [])⟩, ⟨[1], .trait (.mk 5 [])⟩] ∧
    relateExistentialPredicates eqRel
        [⟨[1], .trait (.mk 5 [])⟩, ⟨[0], .trait (.mk 5 [])⟩]
        [⟨[0], .trait (.mk 5 [])⟩, ⟨[1], .trait (.mk 5 [])⟩] =
      .err .mismatch :=
  ⟨List.Perm.swap (⟨[0], .trait (.mk 5 [])⟩ : Binder ExistentialPredicate)
    ⟨[1], .trait (.mk 5 [])⟩ [], rfl, rfl⟩
